import Mathlib

/-!
Verification of the pyfarm-core layered configuration resolver.

The definitions below are a shallow embedding of `src/pyfarm/core/config.py`:
the environment readers (`read_env_bool`, `read_env_number`,
`read_env_strict_number`), the `Configuration` path resolver
(`split_version`, `directories`, `files`) and the loader (`load`).
The process environment is passed in as an explicit mapping, the filesystem
as explicit predicates, and the YAML parser (an external collaborator of the
core) is abstracted by taking the ordered list of parsed top-level documents
as input.  Python strings are Lean strings; Python path and string
primitives used by the code are modelled by the `py*` helpers below.
-/

/-- True when the string begins with the path separator. -/
def startsWithSep (s : String) : Bool :=
  match s.data with
  | '/' :: _ => true
  | _ => false

/-- True when the string ends with the path separator. -/
def endsWithSep (s : String) : Bool :=
  match s.data.getLast? with
  | some '/' => true
  | _ => false

/-- Models POSIX `os.path.join` for two components, as used by the source:
if the right side is absolute it wins; joining with an empty right side
appends a trailing separator. -/
def pyJoin (a b : String) : String :=
  if startsWithSep b then b
  else if a = "" then b
  else if endsWithSep a then a ++ b
  else a ++ "/" ++ b

/-- Models Python `sep.join(parts)` (string join). -/
def pyStrJoin (sep : String) : List String → String
  | [] => ""
  | [x] => x
  | x :: xs => x ++ sep ++ pyStrJoin sep xs

/-- If `sep` is a prefix of `l`, returns the remainder after it. -/
def dropPrefixChars : List Char → List Char → Option (List Char)
  | [], l => some l
  | _ :: _, [] => none
  | s :: ss, c :: cs => if s = c then dropPrefixChars ss cs else none

/-- Worker for `pySplit`: scans left to right for non-overlapping occurrences
of the (nonempty) separator, accumulating the current field in `acc`
(reversed).  `fuel` bounds the recursion by the input length; every step
consumes at least one character, so the fuel is never exhausted. -/
def pySplitAux (sep : List Char) : Nat → List Char → List Char → List (List Char)
  | 0, _, acc => [acc.reverse]
  | _ + 1, [], acc => [acc.reverse]
  | fuel + 1, c :: rest, acc =>
    match dropPrefixChars sep (c :: rest) with
    | some rest2 => acc.reverse :: pySplitAux sep fuel rest2 []
    | none => pySplitAux sep fuel rest (c :: acc)

/-- Models Python `s.split(sep)` for a nonempty separator:
`"".split(".") = [""]`, `"1.2.3".split(".") = ["1","2","3"]`,
`"1.2.3".split("1.2.3") = ["",""]`. -/
def pySplit (s sep : String) : List String :=
  (pySplitAux sep.data s.data.length s.data []).map String.mk

/-- `Configuration.split_version` from the source:
splits `self.version` on `sep` and returns the cumulative prefixes
`[sep.join(split[:1]), sep.join(split[:2]), ...]`; returns `[]` when the
version is `None`.  Note the source produces the least-specific prefix
first (its own docstring example is `['1', '1.2', '1.2.3']`). -/
def split_version (version : Option String) (sep : String) : List String :=
  match version with
  | none => []
  | some v =>
    let split := pySplit v sep
    (List.range split.length).map (fun i => pyStrJoin sep (split.take (i + 1)))

/-- The state of a `Configuration` instance relevant to path resolution:
the service name, the (optional) version string, and the three optional
roots computed in `__init__` (`system_root`, `environment_root`,
`local_dir`).  The class in `src/` has no user root. -/
structure Configuration where
  service_name : String
  version : Option String
  system_root : Option String
  environment_root : Option String
  local_dir : Option String

/-- `self.child_dir = join(PARENT_APPLICATION_NAME, service_name)` with
`PARENT_APPLICATION_NAME = "pyfarm"`. -/
def Configuration.child_dir (cfg : Configuration) : String :=
  pyJoin "pyfarm" cfg.service_name

/-- The version tails used by `Configuration.directories`.  The source calls
`self.split_version(self.version)`, whose signature is
`split_version(self, sep=".")`: the version string itself is passed as the
separator (when the version is `None`, `split_version` returns `[]` before
the separator is used). -/
def Configuration.directoryVersions (cfg : Configuration) : List String :=
  match cfg.version with
  | none => []
  | some v => split_version (some v) v

/-- `Configuration.directories(filter_missing)` from the source: inserts the
version-free tail `""` in front of the version tails, collects the set
roots in order (system root, environment root, local directory), forms the
`itertools.product` of roots and tails (roots-major), and keeps a path when
`filter_missing and isdir(path) or not filter_missing`.  The filesystem is
the explicit predicate `isdir`. -/
def Configuration.directories (cfg : Configuration) (filter_missing : Bool)
    (isdir : String → Bool) : List String :=
  let versions := "" :: cfg.directoryVersions
  let roots :=
    (match cfg.system_root with
     | some r => [pyJoin r cfg.child_dir]
     | none => []) ++
    (match cfg.environment_root with
     | some r => [pyJoin r cfg.child_dir]
     | none => []) ++
    (match cfg.local_dir with
     | some r => [pyJoin r cfg.child_dir]
     | none => [])
  let paths := (roots.map (fun r => versions.map (fun t => pyJoin r t))).flatten
  paths.filter (fun p => (filter_missing && isdir p) || !filter_missing)

/-- `Configuration.files(filter_missing)` from the source: returns `[]` when
there are no directories; otherwise joins each directory with
`service_name + FILE_EXTENSION` (`FILE_EXTENSION = ".yml"`) and filters with
`filterer = lambda _: True if not filter_missing else isfile`.  That lambda
never applies `isfile`: when `filter_missing` is true it returns the
`isfile` function object itself, which Python treats as truthy, so the
filter keeps every path in both branches.  The `isfile` predicate is kept
as a parameter to record that the result does not depend on it. -/
def Configuration.files (cfg : Configuration) (filter_missing : Bool)
    (isdir : String → Bool) (isfile : String → Bool) : List String :=
  let dirs := cfg.directories filter_missing isdir
  if dirs.isEmpty then []
  else
    let filename := cfg.service_name ++ ".yml"
    let filepaths := dirs.map (fun d => pyJoin d filename)
    let _ := isfile
    filepaths.filter (fun _ => true)

/-- A Python value as produced by evaluating an environment-variable string
with `ast.literal_eval`, or supplied as a default.  Only the scalar forms
exercised by the environment readers are represented; a float literal is
carried as its source text since no float arithmetic is performed. -/
inductive PyVal where
  | vNone : PyVal
  | vBool (b : Bool) : PyVal
  | vInt (n : Int) : PyVal
  | vFloat (lit : String) : PyVal
  | vStr (s : String) : PyVal
deriving DecidableEq

/-- The error kinds raised by the environment readers, named as in the spec:
`contractError` is the source's `AssertionError` (required argument
omitted), `typeConversionError` its `TypeError`, `missingVariable` the
`EnvironmentError` from `read_env` without a default, and
`literalParseError` the `ValueError` from `literal_eval`. -/
inductive CfgError where
  | contractError : CfgError
  | typeConversionError : CfgError
  | missingVariable : CfgError
  | literalParseError : CfgError
deriving DecidableEq

/-- ASCII lowering of a character, as `str.lower` acts on the values the
readers compare against. -/
def pyCharLower (c : Char) : Char :=
  if 'A' ≤ c ∧ c ≤ 'Z' then Char.ofNat (c.toNat + 32) else c

/-- Models Python `s.lower()` on ASCII strings. -/
def pyLower (s : String) : String :=
  String.mk (s.data.map pyCharLower)

/-- `BOOLEAN_TRUE` from the source. -/
def BOOLEAN_TRUE : List String := ["1", "t", "y", "true", "yes"]

/-- `BOOLEAN_FALSE` from the source. -/
def BOOLEAN_FALSE : List String := ["0", "f", "n", "false", "no"]

/-- The string branch of `read_env_bool`: lowercase the value, return true
on membership in `BOOLEAN_TRUE`, false on membership in `BOOLEAN_FALSE`,
and raise `TypeError` otherwise. -/
def pyBoolConv (s : String) : Except CfgError Bool :=
  let lv := pyLower s
  if BOOLEAN_TRUE.contains lv then Except.ok true
  else if BOOLEAN_FALSE.contains lv then Except.ok false
  else Except.error CfgError.typeConversionError

/-- `read_env_bool(envvar)` called without a default: the source installs a
private `notset` sentinel as the default, so when the variable is unset the
sentinel comes back and `assert value is not notset` fails
(`AssertionError`, the spec's `ContractError`).  When the variable is set,
its string value is converted as usual. -/
def read_env_bool_nodefault (environ : String → Option String) (name : String) :
    Except CfgError Bool :=
  match environ name with
  | none => Except.error CfgError.contractError
  | some s => pyBoolConv s

/-- `read_env_bool(envvar, default)`: a set variable is converted from its
string; otherwise the default is returned when boolean, converted when a
string, and rejected with `TypeError` for any other type. -/
def read_env_bool_default (environ : String → Option String) (name : String)
    (default : PyVal) : Except CfgError Bool :=
  match environ name with
  | some s => pyBoolConv s
  | none =>
    match default with
    | PyVal.vStr s => pyBoolConv s
    | PyVal.vBool b => Except.ok b
    | _ => Except.error CfgError.typeConversionError

/-- True when the list is a nonempty run of ASCII digits. -/
def isDigits (l : List Char) : Bool :=
  !l.isEmpty && l.all (fun c => c.isDigit)

/-- Numeric value of a digit run. -/
def digitsToNat (l : List Char) : Nat :=
  l.foldl (fun a c => a * 10 + (c.toNat - 48)) 0

/-- Integer literals (optional leading minus, then digits). -/
def pyIntLit (s : String) : Option Int :=
  match s.data with
  | '-' :: rest => if isDigits rest then some (-(digitsToNat rest : Int)) else none
  | l => if isDigits l then some (digitsToNat l) else none

/-- Float literals of the simple form `digits.digits` with an optional
leading minus; the literal text is kept. -/
def pyFloatLit (s : String) : Option String :=
  match pySplit s "." with
  | [a, b] => if (pyIntLit a).isSome && isDigits b.data then some s else none
  | _ => none

/-- Models the scalar fragment of Python `ast.literal_eval` (an external
collaborator of this core): boolean and `None` constants, integer and
simple float literals; everything else fails to parse (`ValueError`). -/
def pyLiteralEval (s : String) : Option PyVal :=
  if s = "True" then some (PyVal.vBool true)
  else if s = "False" then some (PyVal.vBool false)
  else if s = "None" then some PyVal.vNone
  else
    match pyIntLit s with
    | some n => some (PyVal.vInt n)
    | none =>
      match pyFloatLit s with
      | some f => some (PyVal.vFloat f)
      | none => none

/-- `isinstance(value, NUMERIC_TYPES)` as used by `read_env_number`.
`NUMERIC_TYPES` (from `pyfarm.core.enums`, not under `src/`) contains the
integer and float types; a boolean passes the check because Python's `bool`
is a subclass of `int`. -/
def NUMERIC_TYPES_check (v : PyVal) : Bool :=
  match v with
  | PyVal.vInt _ => true
  | PyVal.vFloat _ => true
  | PyVal.vBool _ => true
  | _ => false

/-- The number types a caller can request from `read_env_strict_number`. -/
inductive PyNumberType where
  | int : PyNumberType
  | float : PyNumberType
deriving DecidableEq

/-- `isinstance(value, number_type)` for the two requestable number types.
A boolean is an instance of `int` (Python subclassing); nothing else
crosses type lines. -/
def pyIsInstance (v : PyVal) (t : PyNumberType) : Bool :=
  match t with
  | PyNumberType.int =>
    match v with
    | PyVal.vInt _ => true
    | PyVal.vBool _ => true
    | _ => false
  | PyNumberType.float =>
    match v with
    | PyVal.vFloat _ => true
    | _ => false

/-- The spec's words, for comparison with `pyIsInstance`: the resolved
value's concrete type exactly matches the requested number type. -/
def exactTypeMatch (v : PyVal) (t : PyNumberType) : Bool :=
  match v, t with
  | PyVal.vInt _, PyNumberType.int => true
  | PyVal.vFloat _, PyNumberType.float => true
  | _, _ => false

/-- `read_env_number(envvar)` without a default: raises `EnvironmentError`
when the variable is unset, evaluates the literal (raising `ValueError` on
parse failure), and raises `TypeError` unless the result is numeric. -/
def read_env_number (environ : String → Option String) (name : String) :
    Except CfgError PyVal :=
  match environ name with
  | none => Except.error CfgError.missingVariable
  | some s =>
    match pyLiteralEval s with
    | none => Except.error CfgError.literalParseError
    | some v =>
      if NUMERIC_TYPES_check v then Except.ok v
      else Except.error CfgError.typeConversionError

/-- `read_env_strict_number(envvar, number_type=t)`: the result of
`read_env_number` is additionally checked with
`isinstance(value, number_type)`, raising `TypeError` on mismatch. -/
def read_env_strict_number (environ : String → Option String) (name : String)
    (number_type : PyNumberType) : Except CfgError PyVal :=
  match read_env_number environ name with
  | Except.error e => Except.error e
  | Except.ok v =>
    if pyIsInstance v number_type then Except.ok v
    else Except.error CfgError.typeConversionError

/-- A YAML value as stored in the configuration store: scalars, plus nested
mappings represented as ordered association lists (a parsed YAML mapping
has unique keys). -/
inductive Value where
  | vStr (s : String) : Value
  | vInt (n : Int) : Value
  | vBool (b : Bool) : Value
  | vDict (entries : List (String × Value)) : Value

/-- A parsed YAML top-level mapping: an ordered association list. -/
def TopLevel := List (String × Value)

/-- The configuration store viewed extensionally: what a lookup of each key
returns (Python `dict` lookup; `none` means the key is absent). -/
def Store := String → Option Value

/-- The target environment mapping of `load`, viewed extensionally. -/
def EnvMap := String → Option Value

/-- Lookup in a parsed mapping (`data[k]`; a parsed YAML mapping has unique
keys, and lookup returns the entry for `k` when there is one). -/
def assocGet (d : TopLevel) (k : String) : Option Value :=
  match d with
  | [] => none
  | p :: rest => if p.1 == k then some p.2 else assocGet rest k

/-- `k in data`. -/
def assocContains (d : TopLevel) (k : String) : Bool :=
  (assocGet d k).isSome

/-- `data.pop(k)`: the mapping without key `k` (keys are unique in a parsed
mapping, so dropping every entry for `k` removes exactly the popped one). -/
def assocRemove (d : TopLevel) (k : String) : TopLevel :=
  match d with
  | [] => []
  | p :: rest => if p.1 == k then assocRemove rest k else p :: assocRemove rest k

/-- `self.update(data)` on the store: keys of `data` override, all other
keys keep their previous value. -/
def updateStore (st : Store) (d : TopLevel) : Store :=
  fun k =>
    match assocGet d k with
    | some v => some v
    | none => st k

/-- `environment.update(config_environment)` with the popped `env`
sub-mapping. -/
def updateEnv (envm : EnvMap) (sub : List (String × Value)) : EnvMap :=
  fun k =>
    match assocGet sub k with
    | some v => some v
    | none => envm k

/-- The errors `load` can raise per file: `notMapping` is the `TypeError`
hit when `yaml.load` returned `None` for an empty file (both
`"env" in data` and `dict.update(data)` reject `None`); `envNotMapping` is
the `AssertionError` from `assert isinstance(config_environment, dict)`
(the spec's `ConfigFormatError`). -/
inductive LoadError where
  | notMapping : LoadError
  | envNotMapping : LoadError
deriving DecidableEq

/-- The body of `Configuration.load` for a single candidate file, given the
parsed document (`none` when the file was empty and `yaml.load` returned
`None`).  When `environment is not None` and the document has an `env` key,
that sub-mapping must be a mapping and is merged into the environment,
and the key is popped before the remainder is merged into the store. -/
def loadOne (environment : Option EnvMap) (st : Store) (data : Option TopLevel) :
    Except LoadError (Store × Option EnvMap) :=
  match data with
  | none => Except.error LoadError.notMapping
  | some d =>
    match environment with
    | none => Except.ok (updateStore st d, none)
    | some envm =>
      match assocGet d "env" with
      | none => Except.ok (updateStore st d, some envm)
      | some ev =>
        match ev with
        | Value.vDict sub =>
          Except.ok (updateStore st (assocRemove d "env"), some (updateEnv envm sub))
        | _ => Except.error LoadError.envNotMapping

/-- `Configuration.load(environment)` over the ordered list of parsed
candidate documents (file discovery and YAML parsing are the external
inputs of the loop). -/
def load (environment : Option EnvMap) (st : Store) :
    List (Option TopLevel) → Except LoadError (Store × Option EnvMap)
  | [] => Except.ok (st, environment)
  | d :: rest =>
    match loadOne environment st d with
    | Except.error e => Except.error e
    | Except.ok (st2, env2) => load env2 st2 rest

/-- A character a `$` token name may contain: alphanumeric or underscore. -/
def isTokenChar (c : Char) : Bool :=
  c.isAlphanum || c == '_'

/-- Output for a finished token accumulator (characters in reverse order):
a bare `$` with no name stays literal, otherwise the resolver's result is
emitted as-is (its characters are not rescanned). -/
def emitTok (resolve : String → String) (acc : List Char) : List Char :=
  if acc.isEmpty then ['$'] else (resolve (String.mk acc.reverse)).data

/-- Modelled from the spec: the token scan of the Expansion Engine
(spec section 4.4), which belongs to the repository's current
`Configuration` class and is not present under `src/` (only its tests
are).  A single left-to-right pass replaces every maximal token
`$<alphanumeric-or-underscore run>`; the first argument holds the
accumulator of the token currently being read (in reverse), `none` when
outside a token.  Substituted text is spliced in without being rescanned
(single-pass, no transitive recursion). -/
def expandAux (resolve : String → String) :
    Option (List Char) → List Char → List Char
  | none, [] => []
  | some acc, [] => emitTok resolve acc
  | none, c :: rest =>
    if c == '$' then expandAux resolve (some []) rest
    else c :: expandAux resolve none rest
  | some acc, c :: rest =>
    if isTokenChar c then expandAux resolve (some (c :: acc)) rest
    else if c == '$' then emitTok resolve acc ++ expandAux resolve (some []) rest
    else emitTok resolve acc ++ c :: expandAux resolve none rest

/-- Modelled from the spec: one substitution pass over a string. -/
def pyExpandVars (resolve : String → String) (s : String) : String :=
  String.mk (expandAux resolve none s.data)

/-- Modelled from the spec: home expansion of a leading `~` (the behaviour
of `os.path.expanduser` on `~` and `~/rest`). -/
def pyExpandUser (home : String) (s : String) : String :=
  match s.data with
  | ['~'] => home
  | '~' :: '/' :: rest => home ++ String.mk ('/' :: rest)
  | _ => s

/-- Modelled from the spec: resolution of one `$name` token (spec sections
4.3 and 4.4).  The token is resolved first against the store's own keys
(string-valued entries substitute their raw, unexpanded text), then the
reserved `$temp` name yields the synthesized temp-directory path, then the
process environment is consulted, and an unresolved token is kept verbatim
(no failure). -/
def resolveToken (store : Store) (environ : String → Option String)
    (tempdir : String) (name : String) : String :=
  match store name with
  | some (Value.vStr w) => w
  | _ =>
    if name = "temp" then tempdir
    else
      match environ name with
      | some w => w
      | none => "$" ++ name

/-- Modelled from the spec: the Expansion Engine applied to one stored
value — a non-string value is returned unchanged, a string gets home
expansion of a leading `~` and one token-substitution pass. -/
def expandValue (store : Store) (environ : String → Option String)
    (tempdir home : String) : Value → Value
  | Value.vStr s =>
    Value.vStr (pyExpandVars (resolveToken store environ tempdir) (pyExpandUser home s))
  | v => v

/-- Modelled from the spec: the read path of the configuration store
(spec section 4.3) — `get`/item access looks the raw value up and passes
it through the Expansion Engine before returning it. -/
def config_get (store : Store) (environ : String → Option String)
    (tempdir home : String) (key : String) : Option Value :=
  match store key with
  | some v => some (expandValue store environ tempdir home v)
  | none => none

/-- The write path of the store: a plain mapping update, storing the raw,
unexpanded value. -/
def config_set (store : Store) (key : String) (v : Value) : Store :=
  fun k => if k = key then some v else store k

/-- A nonempty name made only of token characters, i.e. exactly what one
`$` token can capture. -/
def IsTokenName (s : String) : Prop :=
  s.data ≠ [] ∧ ∀ c ∈ s.data, isTokenChar c = true

instance (s : String) : Decidable (IsTokenName s) := by
  unfold IsTokenName
  infer_instance

/-- A configuration with version 1.2.3 and only the system root set, as on
a Linux host with no environment root and no local etc directory. -/
def cfgAgent : Configuration :=
  { service_name := "agent", version := some "1.2.3",
    system_root := some "/etc", environment_root := none, local_dir := none }

/-- The same configuration without a version. -/
def cfgAgentNoVer : Configuration :=
  { service_name := "agent", version := none,
    system_root := some "/etc", environment_root := none, local_dir := none }

/-- A filesystem on which exactly the version-free configuration directory
exists. -/
def isdirOnly : String → Bool := fun p => p == "/etc/pyfarm/agent/"

/-- The store with no keys. -/
def emptyStore : Store := fun _ => none

/-- The environment mapping with no keys. -/
def emptyEnvMap : EnvMap := fun _ => none

/-- Parsed file A of the shallow-merge round trip. -/
def mergeFileA : TopLevel := [("x", Value.vInt 1)]

/-- Parsed file B of the shallow-merge round trip. -/
def mergeFileB : TopLevel := [("x", Value.vInt 2), ("y", Value.vInt 3)]

/-- First parsed file of the env-block example. -/
def envFile1 : TopLevel := [("env", Value.vDict [("a", Value.vInt 1)])]

/-- Second parsed file of the env-block example. -/
def envFile2 : TopLevel := [("env", Value.vDict [("a", Value.vInt 2), ("b", Value.vInt 3)])]

/-- A parsed file with an `env` mapping and an ordinary key. -/
def envFileZ : TopLevel := [("env", Value.vDict [("a", Value.vInt 1)]), ("z", Value.vInt 9)]

/-- A process environment with one boolean-string variable set. -/
def environFlagTrue : String → Option String :=
  fun n => if n = "PYFARM_FLAG" then some "true" else none

/-- A process environment with one variable holding the literal `True`. -/
def environLitTrue : String → Option String :=
  fun n => if n = "PYFARM_NUM" then some "True" else none

/-- A process environment with one integer-valued variable. -/
def environLit42 : String → Option String :=
  fun n => if n = "PYFARM_COUNT" then some "42" else none

/-- A store with one string-valued key, for the expansion witnesses. -/
def storeFoo : Store :=
  fun n => if n = "foo" then some (Value.vStr "FOO") else none

/-- A process environment with one variable, for the expansion witnesses. -/
def environBar : String → Option String :=
  fun n => if n = "bar" then some "BAR" else none

theorem assocGet_of_contains_false (d : TopLevel) (k : String)
    (h : assocContains d k = false) : assocGet d k = none := by
  unfold assocContains at h
  cases hg : assocGet d k with
  | none => rfl
  | some v => rw [hg] at h; simp at h

theorem assocGet_remove_self (d : TopLevel) (k : String) :
    assocGet (assocRemove d k) k = none := by
  induction d with
  | nil => rfl
  | cons p rest ih =>
    cases hb : (p.1 == k) with
    | true => simpa [assocRemove, hb] using ih
    | false => simpa [assocRemove, assocGet, hb] using ih

theorem assocGet_remove_ne (d : TopLevel) (k k2 : String) (h : k2 ≠ k) :
    assocGet (assocRemove d k) k2 = assocGet d k2 := by
  induction d with
  | nil => rfl
  | cons p rest ih =>
    cases hb : (p.1 == k) with
    | true =>
      have hp : p.1 = k := by simpa using hb
      have hb2 : (p.1 == k2) = false := by
        simp [hp]
        exact fun he => h he.symm
      simpa [assocRemove, assocGet, hb, hb2] using ih
    | false =>
      cases hb2 : (p.1 == k2) with
      | true => simp [assocRemove, assocGet, hb, hb2]
      | false => simpa [assocRemove, assocGet, hb, hb2] using ih

/-- Claim C5: after `load()` over the candidate files in order, top-level
keys from later files override those from earlier files key-by-key with a
shallow merge, and keys defined in only one file are kept: for any two
parsed files without a reserved `env` key, the final store resolves every
key first in the later file, then in the earlier file, then in the prior
store contents. -/
theorem C5_shallow_merge (st : Store) (envm : EnvMap) (dA dB : TopLevel)
    (hA : assocContains dA "env" = false) (hB : assocContains dB "env" = false) :
    ∃ stF, load (some envm) st [some dA, some dB] = Except.ok (stF, some envm)
      ∧ ∀ k, stF k =
          (match assocGet dB k with
           | some v => some v
           | none =>
             match assocGet dA k with
             | some v => some v
             | none => st k) := by
  have hA2 := assocGet_of_contains_false dA "env" hA
  have hB2 := assocGet_of_contains_false dB "env" hB
  refine ⟨updateStore (updateStore st dA) dB, ?_, ?_⟩
  · simp [load, loadOne, hA2, hB2]
  · intro k
    unfold updateStore
    cases assocGet dB k <;> cases assocGet dA k <;> rfl

/-- Witness for C5 at the round-trip example: file A defines x=1, file B
defines x=2 and y=3; after load, x resolves to 2 and y to 3. -/
theorem C5_shallow_merge_witness :
    ∃ stF, load (some emptyEnvMap) emptyStore [some mergeFileA, some mergeFileB]
        = Except.ok (stF, some emptyEnvMap)
      ∧ stF "x" = some (Value.vInt 2) ∧ stF "y" = some (Value.vInt 3) := by
  obtain ⟨stF, h1, h2⟩ :=
    C5_shallow_merge emptyStore emptyEnvMap mergeFileA mergeFileB (by decide) (by decide)
  exact ⟨stF, h1, (h2 "x").trans rfl, (h2 "y").trans rfl⟩

/-- Claim C6: during `load()`, a parsed file whose top-level mapping
contains `env` (with a mapping value) has that sub-mapping merged into the
target environment with per-key override, and the `env` key is removed
before the remaining keys reach the store, so the store's `env` entry is
untouched and other keys merge normally. -/
theorem C6_env_extraction (envm : EnvMap) (st : Store) (d : TopLevel)
    (sub : List (String × Value))
    (h : assocGet d "env" = some (Value.vDict sub)) :
    ∃ stF envF, loadOne (some envm) st (some d) = Except.ok (stF, some envF)
      ∧ (∀ k, envF k =
          (match assocGet sub k with
           | some v => some v
           | none => envm k))
      ∧ stF "env" = st "env"
      ∧ (∀ k, k ≠ "env" → stF k =
          (match assocGet d k with
           | some v => some v
           | none => st k)) := by
  refine ⟨updateStore st (assocRemove d "env"), updateEnv envm sub, ?_, ?_, ?_, ?_⟩
  · simp [loadOne, h]
  · intro k; rfl
  · show updateStore st (assocRemove d "env") "env" = st "env"
    unfold updateStore
    rw [assocGet_remove_self]
  · intro k hk
    show updateStore st (assocRemove d "env") k = _
    unfold updateStore
    rw [assocGet_remove_ne d "env" k hk]

/-- Witness for C6 at the example: loading env blocks a=1 then a=2, b=3
yields the environment a=2, b=3, and none of env, a, b is a store key. -/
theorem C6_env_extraction_witness :
    ∃ stF envF, load (some emptyEnvMap) emptyStore [some envFile1, some envFile2]
        = Except.ok (stF, some envF)
      ∧ envF "a" = some (Value.vInt 2) ∧ envF "b" = some (Value.vInt 3)
      ∧ stF "env" = none ∧ stF "a" = none ∧ stF "b" = none := by
  obtain ⟨st1, env1, h1, he1, hs1, hr1⟩ :=
    C6_env_extraction emptyEnvMap emptyStore envFile1 _ rfl
  obtain ⟨st2, env2, h2, he2, hs2, hr2⟩ :=
    C6_env_extraction env1 st1 envFile2 _ rfl
  refine ⟨st2, env2, ?_, ?_, ?_, ?_, ?_, ?_⟩
  · simp [load, h1, h2]
  · rw [he2 "a"]; rfl
  · rw [he2 "b"]; rfl
  · rw [hs2, hs1]; rfl
  · exact (hr2 "a" (by decide)).trans ((hr1 "a" (by decide)).trans rfl)
  · exact (hr2 "b" (by decide)).trans ((hr1 "b" (by decide)).trans rfl)

/-- Claim C7 (code evaluation): an empty candidate file parses to `None`,
and `load` then fails (`TypeError` in the source: `None` supports neither
`"env" in data` nor `dict.update`), with any environment argument — it is
not the claimed no-op. -/
theorem C7_empty_file_code_eval :
    loadOne (some emptyEnvMap) emptyStore none = Except.error LoadError.notMapping
    ∧ loadOne none emptyStore none = Except.error LoadError.notMapping
    ∧ load (some emptyEnvMap) emptyStore [none] = Except.error LoadError.notMapping :=
  ⟨rfl, rfl, rfl⟩

/-- Claim C10: when `load()` is called with environment `None`, the `env`
key is not extracted: it is merged into the store like any ordinary key
and no environment mapping is produced. -/
theorem C10_env_none_ordinary_key (st : Store) (d : TopLevel) (v : Value)
    (h : assocGet d "env" = some v) :
    ∃ stF, loadOne none st (some d) = Except.ok (stF, none)
      ∧ stF "env" = some v
      ∧ (∀ k, stF k =
          (match assocGet d k with
           | some w => some w
           | none => st k)) := by
  refine ⟨updateStore st d, rfl, ?_, fun k => rfl⟩
  show updateStore st d "env" = some v
  unfold updateStore
  rw [h]

/-- Witness for C10: a file with an `env` mapping and an ordinary key z=9,
loaded with environment `None`, stores both `env` and z. -/
theorem C10_env_none_ordinary_key_witness :
    ∃ stF, loadOne none emptyStore (some envFileZ) = Except.ok (stF, none)
      ∧ stF "env" = some (Value.vDict [("a", Value.vInt 1)])
      ∧ stF "z" = some (Value.vInt 9) := by
  obtain ⟨stF, h1, h2, h3⟩ := C10_env_none_ordinary_key emptyStore envFileZ _ rfl
  exact ⟨stF, h1, h2, (h3 "z").trans rfl⟩

/-- Counterexample for C8: calling `read_env_bool` without a default does
NOT always fail — when the variable is set, the sentinel default is never
returned, the assertion passes, and the string is converted normally. -/
theorem C8_no_default_counterexample :
    read_env_bool_nodefault environFlagTrue "PYFARM_FLAG" = Except.ok true := rfl

/-- Claim C8 (amended): `read_env_bool` maps every case-insensitive member
of the true set to true and of the false set to false, fails with
`TypeError` (the spec's `TypeConversionError`) on any other string, and
when called without a default fails with `AssertionError` (the spec's
`ContractError`) when the variable is not set in the environment. -/
theorem C8_bool_conversion (environ : String → Option String)
    (name s : String) (default : PyVal) :
    (environ name = some s → pyLower s ∈ BOOLEAN_TRUE →
      read_env_bool_nodefault environ name = Except.ok true
      ∧ read_env_bool_default environ name default = Except.ok true)
    ∧ (environ name = some s → pyLower s ∈ BOOLEAN_FALSE →
      read_env_bool_nodefault environ name = Except.ok false
      ∧ read_env_bool_default environ name default = Except.ok false)
    ∧ (environ name = some s → pyLower s ∉ BOOLEAN_TRUE → pyLower s ∉ BOOLEAN_FALSE →
      read_env_bool_nodefault environ name = Except.error CfgError.typeConversionError
      ∧ read_env_bool_default environ name default
          = Except.error CfgError.typeConversionError)
    ∧ (environ name = none →
      read_env_bool_nodefault environ name = Except.error CfgError.contractError) := by
  refine ⟨?_, ?_, ?_, ?_⟩
  · intro he hm
    constructor <;>
      simp [read_env_bool_nodefault, read_env_bool_default, pyBoolConv, he, hm]
  · intro he hm
    have hnt : pyLower s ∉ BOOLEAN_TRUE := by
      intro hmem
      have hm2 := hm
      simp [BOOLEAN_FALSE] at hm2
      rcases hm2 with h | h | h | h | h <;> rw [h] at hmem <;> simp [BOOLEAN_TRUE] at hmem
    constructor <;>
      simp [read_env_bool_nodefault, read_env_bool_default, pyBoolConv, he, hm, hnt]
  · intro he hm1 hm2
    constructor <;>
      simp [read_env_bool_nodefault, read_env_bool_default, pyBoolConv, he, hm1, hm2]
  · intro he
    simp [read_env_bool_nodefault, he]

/-- Witness for C8: "Yes" reads as true, "0" as false, "42" fails to
convert, and an unset variable without a default hits the assertion. -/
theorem C8_bool_conversion_witness :
    (read_env_bool_nodefault (fun n => if n = "A" then some "Yes" else none) "A"
        = Except.ok true)
    ∧ (read_env_bool_nodefault (fun n => if n = "B" then some "0" else none) "B"
        = Except.ok false)
    ∧ (read_env_bool_nodefault (fun n => if n = "C" then some "42" else none) "C"
        = Except.error CfgError.typeConversionError)
    ∧ (read_env_bool_nodefault (fun _ => none) "D"
        = Except.error CfgError.contractError) :=
  ⟨((C8_bool_conversion (fun n => if n = "A" then some "Yes" else none) "A" "Yes"
      PyVal.vNone).1 rfl (by decide)).1,
   ((C8_bool_conversion (fun n => if n = "B" then some "0" else none) "B" "0"
      PyVal.vNone).2.1 rfl (by decide)).1,
   ((C8_bool_conversion (fun n => if n = "C" then some "42" else none) "C" "42"
      PyVal.vNone).2.2.1 rfl (by decide) (by decide)).1,
   (C8_bool_conversion (fun _ => none) "D" "" PyVal.vNone).2.2.2 rfl⟩

/-- Counterexample for C9: the variable holds the literal `True`, whose
concrete type (bool) is not int, yet requesting int succeeds — Python's
`isinstance` accepts a bool where an int is requested, so the check is not
an exact concrete-type match. -/
theorem C9_strict_number_counterexample :
    read_env_strict_number environLitTrue "PYFARM_NUM" PyNumberType.int
        = Except.ok (PyVal.vBool true)
    ∧ exactTypeMatch (PyVal.vBool true) PyNumberType.int = false :=
  ⟨rfl, rfl⟩

/-- Claim C9 (amended): `read_env_strict_number` fails with `TypeError`
(the spec's `TypeConversionError`) unless the resolved value is an
instance of the requested number type under the language's subtype rules
(a bool counts as an int); in particular, requesting float against an
integer-valued environment variable fails. -/
theorem C9_strict_isinstance (environ : String → Option String)
    (name s : String) (v : PyVal) (t : PyNumberType)
    (he : environ name = some s) (hv : pyLiteralEval s = some v)
    (hn : NUMERIC_TYPES_check v = true) :
    (pyIsInstance v t = false →
      read_env_strict_number environ name t = Except.error CfgError.typeConversionError)
    ∧ (pyIsInstance v t = true → read_env_strict_number environ name t = Except.ok v)
    ∧ (∀ n : Int, v = PyVal.vInt n →
      read_env_strict_number environ name PyNumberType.float
        = Except.error CfgError.typeConversionError) := by
  refine ⟨?_, ?_, ?_⟩
  · intro hi
    simp [read_env_strict_number, read_env_number, he, hv, hn, hi]
  · intro hi
    simp [read_env_strict_number, read_env_number, he, hv, hn, hi]
  · intro n hvn
    subst hvn
    simp [read_env_strict_number, read_env_number, he, hv, hn, pyIsInstance]

/-- Witness for C9: requesting a float from the integer-valued variable 42
fails with the type-conversion error. -/
theorem C9_strict_isinstance_witness :
    read_env_strict_number environLit42 "PYFARM_COUNT" PyNumberType.float
      = Except.error CfgError.typeConversionError :=
  (C9_strict_isinstance environLit42 "PYFARM_COUNT" "42" (PyVal.vInt 42)
    PyNumberType.float rfl rfl rfl).2.2 42 rfl

theorem expandAux_token_run (resolve : String → String) (acc name : List Char)
    (h : ∀ c ∈ name, isTokenChar c = true) :
    expandAux resolve (some acc) name = emitTok resolve (name.reverse ++ acc) := by
  induction name generalizing acc with
  | nil => rfl
  | cons c rest ih =>
    have hc : isTokenChar c = true := h c (by simp)
    have hrest : ∀ d ∈ rest, isTokenChar d = true := fun d hd => h d (by simp [hd])
    show (if isTokenChar c then expandAux resolve (some (c :: acc)) rest else _) = _
    rw [if_pos hc, ih (c :: acc) hrest, List.reverse_cons, List.append_assoc]
    rfl

theorem pyExpandVars_single_token (resolve : String → String) (name : String)
    (h : IsTokenName name) :
    pyExpandVars resolve ("$" ++ name) = resolve name := by
  obtain ⟨hne, hall⟩ := h
  have hdata : ("$" ++ name).data = '$' :: name.data := by
    cases name
    rfl
  unfold pyExpandVars
  rw [hdata]
  show String.mk (expandAux resolve (some []) name.data) = resolve name
  rw [expandAux_token_run resolve [] name.data hall, List.append_nil]
  unfold emitTok
  rw [if_neg (by simpa using hne)]
  rw [List.reverse_reverse]

theorem pyExpandUser_tilde (home s : String) :
    pyExpandUser home ("~/" ++ s) = home ++ "/" ++ s := by
  obtain ⟨hl⟩ := home
  obtain ⟨sl⟩ := s
  show String.mk (hl ++ '/' :: sl) = String.mk ((hl ++ ['/']) ++ sl)
  exact congrArg String.mk (List.append_cons hl '/' sl)

/-- Claim C1 (spec-modelled): every string value read back from the store
via get or item access passes through the Expansion Engine before it is
returned — a `$`-token resolves first against a string-valued store key,
then the synthesized `$temp`, then the process environment, and stays
verbatim when unresolved; a leading `~` is home-expanded — while the write
path stores the raw, unexpanded value. -/
theorem C1_expansion_on_read (store : Store) (environ : String → Option String)
    (tempdir home key s name w : String) (v : Value) :
    (config_set store key v) key = some v
    ∧ (config_get store environ tempdir home key
        = (store key).map (expandValue store environ tempdir home))
    ∧ (IsTokenName name →
        (store name = some (Value.vStr w) →
          pyExpandVars (resolveToken store environ tempdir) ("$" ++ name) = w)
        ∧ (store name = none → name ≠ "temp" → environ name = some w →
          pyExpandVars (resolveToken store environ tempdir) ("$" ++ name) = w)
        ∧ (store name = none → name ≠ "temp" → environ name = none →
          pyExpandVars (resolveToken store environ tempdir) ("$" ++ name) = "$" ++ name))
    ∧ expandValue store environ tempdir home (Value.vStr ("~/" ++ s))
        = Value.vStr (pyExpandVars (resolveToken store environ tempdir)
            (home ++ "/" ++ s)) := by
  refine ⟨?_, ?_, ?_, ?_⟩
  · simp [config_set]
  · unfold config_get
    cases store key <;> rfl
  · intro htok
    refine ⟨?_, ?_, ?_⟩
    · intro hst
      rw [pyExpandVars_single_token _ _ htok]
      unfold resolveToken
      rw [hst]
    · intro hst hname henv
      rw [pyExpandVars_single_token _ _ htok]
      unfold resolveToken
      rw [hst, henv]
      simp [hname]
    · intro hst hname henv
      rw [pyExpandVars_single_token _ _ htok]
      unfold resolveToken
      rw [hst, henv]
      simp [hname]
  · show Value.vStr (pyExpandVars _ (pyExpandUser home ("~/" ++ s))) = _
    rw [pyExpandUser_tilde]

/-- Witness for C1: with store key foo = "FOO" and environment variable
bar = "BAR", the token scan substitutes a store hit, an environment
fallback, the synthesized temp path, and keeps an unresolved token
verbatim; a leading tilde is home-expanded; the write path stores raw. -/
theorem C1_expansion_on_read_witness :
    (config_set storeFoo "k" (Value.vStr "$foo")) "k" = some (Value.vStr "$foo")
    ∧ pyExpandVars (resolveToken storeFoo environBar "/tmp/pyfarm") ("$" ++ "foo") = "FOO"
    ∧ pyExpandVars (resolveToken storeFoo environBar "/tmp/pyfarm") ("$" ++ "bar") = "BAR"
    ∧ pyExpandVars (resolveToken storeFoo environBar "/tmp/pyfarm") ("$" ++ "nope")
        = "$" ++ "nope"
    ∧ expandValue storeFoo environBar "/tmp/pyfarm" "/home/u" (Value.vStr ("~/" ++ "x"))
        = Value.vStr "/home/u/x" :=
  ⟨(C1_expansion_on_read storeFoo environBar "/tmp/pyfarm" "/home/u" "k" "x" "foo" "FOO"
      (Value.vStr "$foo")).1,
   ((C1_expansion_on_read storeFoo environBar "/tmp/pyfarm" "/home/u" "k" "x" "foo" "FOO"
      (Value.vStr "$foo")).2.2.1 (by decide)).1 rfl,
   ((C1_expansion_on_read storeFoo environBar "/tmp/pyfarm" "/home/u" "k" "x" "bar" "BAR"
      (Value.vStr "$foo")).2.2.1 (by decide)).2.1 rfl (by decide) rfl,
   ((C1_expansion_on_read storeFoo environBar "/tmp/pyfarm" "/home/u" "k" "x" "nope" ""
      (Value.vStr "$foo")).2.2.1 (by decide)).2.2 rfl (by decide) rfl,
   ((C1_expansion_on_read storeFoo environBar "/tmp/pyfarm" "/home/u" "k" "x" "foo" "FOO"
      (Value.vStr "$foo")).2.2.2).trans rfl⟩

/-- Claim C3 (code evaluation at the failing inputs): `split_version` with
the default separator returns the cumulative prefixes least-specific
first — for version 1.2.3 the first entry is "1", not "1.2.3" — and the
empty version yields the one-entry list [""], not an empty sequence.  Both
results contradict the claim and the repository's own tests
(`test_split_version`, `test_split_empty_version`). -/
theorem C3_split_version_code_eval :
    split_version (some "1.2.3") "." = ["1", "1.2", "1.2.3"]
    ∧ split_version (some "1.2.3") "." ≠ ["1.2.3", "1.2", "1"]
    ∧ split_version (some "") "." = [""]
    ∧ split_version (some "") "." ≠ ([] : List String) := by
  refine ⟨by decide, by decide, by decide, by decide⟩

/-- Claim C2 (code evaluation at the failing input): because `directories`
passes the version string as the separator of `split_version`, the version
tails for version 1.2.3 are ["", "1.2.3"], so with the system root /etc the
unfiltered result duplicates the version-free directory and omits the
intermediate prefixes /etc/pyfarm/agent/1 and /etc/pyfarm/agent/1.2 —
not the claimed cartesian product of roots and cumulative prefixes.  The
result is independent of the filesystem predicate. -/
theorem C2_directories_code_eval (isdir : String → Bool) :
    cfgAgent.directories false isdir
        = ["/etc/pyfarm/agent/", "/etc/pyfarm/agent/", "/etc/pyfarm/agent/1.2.3"]
    ∧ "/etc/pyfarm/agent/1.2" ∉ cfgAgent.directories false isdir
    ∧ "/etc/pyfarm/agent/1" ∉ cfgAgent.directories false isdir := by
  have h : cfgAgent.directories false isdir
      = ["/etc/pyfarm/agent/", "/etc/pyfarm/agent/", "/etc/pyfarm/agent/1.2.3"] := rfl
  refine ⟨h, ?_, ?_⟩ <;> rw [h] <;> decide

/-- Claim C4 (code evaluation at the failing input): with one existing
configuration directory, `files(filter_missing=True)` returns the candidate
file path for every `isfile` predicate — in particular for a filesystem on
which no file exists at all — because the source's filter predicate never
applies `isfile`.  The claim requires the missing file to be dropped. -/
theorem C4_files_code_eval (isfile : String → Bool) :
    cfgAgentNoVer.files true isdirOnly isfile = ["/etc/pyfarm/agent/agent.yml"] := rfl
